import Mathlib

/-!
Verification of the Lobstertank template engine (package `template`,
files `types.go`, `resolver.go`, `validator.go`, `renderer.go`,
`bundle.go`) against its natural-language specification.

Shallow embedding conventions:
* Go structs become Lean structures with the same fields in declaration
  order; Go strings are `String`, Go `int` is `Int`, Go slices are
  `List`, Go `map[string]string` is an insertion-ordered association
  list `List (String × String)` (Go maps keep one binding per key; the
  association-list operations below preserve that invariant; Go's
  unspecified map iteration order is irrelevant to every property
  proved here, which is noted where it matters).
* Pointer-typed optional sub-specs (`*ReverseProxySpec`, …) become
  `Option`.
* Functions that mutate through a `dst` pointer become pure functions
  returning the new value of `*dst`. Because Go maps are reference
  values, the Tailscale ACL-mapping path — the one place where a
  layer's map is aliased into the accumulated result and later written —
  additionally gets a reference-semantics model over an explicit heap of
  map cells (`mergeMapsH`, `mergeTailscaleH`, `tailscaleStepH`).
-/

namespace Lobstertank

/-- Supported Kind values for template documents (types.go). -/
def KindEncodingTemplate : String := "EncodingTemplate"

def KindRoleOverlay : String := "RoleOverlay"

def KindEnvironmentOverlay : String := "EnvironmentOverlay"

def KindInstanceVars : String := "InstanceVars"

def APIVersion : String := "lobstertank.io/v1alpha1"

/-- Supported roles (types.go). -/
def RoleGateway : String := "gateway"

def RoleControlPlane : String := "control-plane"

def RoleWorker : String := "worker"

def RoleObservability : String := "observability"

def RoleDBAdjunct : String := "db-adjunct"

/-- Supported deployment targets (types.go). -/
def TargetPodman : String := "podman"

def TargetKubernetes : String := "kubernetes"

def TargetOpenShift : String := "openshift"

def TargetDroplet : String := "droplet"

def TargetSandbox : String := "sandbox"

/-- Supported merge strategies for array fields (types.go). -/
def MergeStrategyReplace : String := "replace"

def MergeStrategyAppend : String := "append"

def MergeStrategyUnion : String := "union"

/-- PortSpec defines a network port binding (types.go). -/
structure PortSpec where
  name : String
  port : Int
  hostPort : Int := 0
  protocol : String := ""
  deriving Repr, DecidableEq

/-- ReverseProxySpec defines reverse proxy expectations (types.go). -/
structure ReverseProxySpec where
  enabled : Bool := false
  provider : String := ""
  tls : Bool := false
  deriving Repr, DecidableEq

/-- TailscaleSpec defines Tailscale/Headscale networking (types.go). -/
structure TailscaleSpec where
  enabled : Bool := false
  provider : String := ""
  tags : List String := []
  aclMapping : List (String × String) := []
  deriving Repr, DecidableEq

/-- MultiGatewaySpec defines multi-gateway topology (types.go). -/
structure MultiGatewaySpec where
  enabled : Bool := false
  mode : String := ""
  priority : Int := 0
  deriving Repr, DecidableEq

/-- NetworkSpec defines networking configuration (types.go). -/
structure NetworkSpec where
  ports : List PortSpec := []
  bindAddress : String := ""
  reverseProxy : Option ReverseProxySpec := none
  tailscale : Option TailscaleSpec := none
  multiGateway : Option MultiGatewaySpec := none
  portsMergeStrategy : String := ""
  deriving Repr, DecidableEq

/-- IdentitySpec defines the instance identity and role (types.go). -/
structure IdentitySpec where
  instanceName : String := ""
  role : String := ""
  region : String := ""
  labels : List (String × String) := []
  tailnetTags : List String := []
  deriving Repr, DecidableEq

/-- ResourceSpec defines resource requests/limits (types.go). -/
structure ResourceSpec where
  cpu : String := ""
  memory : String := ""
  storagePaths : List String := []
  deriving Repr, DecidableEq

/-- ImageSpec defines the container image to use (types.go). -/
structure ImageSpec where
  repository : String := ""
  tag : String := ""
  pullPolicy : String := ""
  deriving Repr, DecidableEq

/-- RuntimeSpec defines the deployment target and resource hints (types.go). -/
structure RuntimeSpec where
  deploymentTarget : String := ""
  resources : ResourceSpec := {}
  image : ImageSpec := {}
  deriving Repr, DecidableEq

/-- SecretEntry defines a single secret reference (types.go). -/
structure SecretEntry where
  name : String
  type : String
  ref : String
  deriving Repr, DecidableEq

/-- SecretsSpec defines secret management configuration (types.go). -/
structure SecretsSpec where
  provider : String := ""
  entries : List SecretEntry := []
  entriesMergeStrategy : String := ""
  deriving Repr, DecidableEq

/-- LoggingSpec defines log output configuration (types.go). -/
structure LoggingSpec where
  destinations : List String := []
  redactionRules : List String := []
  level : String := ""
  format : String := ""
  deriving Repr, DecidableEq

/-- MetricsSpec defines metrics export configuration (types.go). -/
structure MetricsSpec where
  enabled : Bool := false
  endpoint : String := ""
  format : String := ""
  deriving Repr, DecidableEq

/-- TracesSpec defines distributed tracing configuration (types.go). -/
structure TracesSpec where
  enabled : Bool := false
  endpoint : String := ""
  format : String := ""
  deriving Repr, DecidableEq

/-- HealthCheckSpec defines readiness and liveness probes (types.go). -/
structure HealthCheckSpec where
  path : String := ""
  interval : String := ""
  timeout : String := ""
  readinessGate : Bool := false
  deriving Repr, DecidableEq

/-- ObservabilitySpec defines logging, metrics, traces, health checks (types.go). -/
structure ObservabilitySpec where
  logging : LoggingSpec := {}
  metrics : MetricsSpec := {}
  traces : TracesSpec := {}
  healthCheck : HealthCheckSpec := {}
  deriving Repr, DecidableEq

/-- PolicySpec defines operational guardrails (types.go). -/
structure PolicySpec where
  updateChannel : String := ""
  pinnedVersion : String := ""
  approvedPlugins : List String := []
  approvedProviders : List String := []
  filesystemAllowlist : List String := []
  commandAllowlist : List String := []
  deriving Repr, DecidableEq

/-- Spec holds the full configuration surface of an OpenClaw install (types.go). -/
structure Spec where
  identity : IdentitySpec := {}
  runtime : RuntimeSpec := {}
  network : NetworkSpec := {}
  secrets : SecretsSpec := {}
  observability : ObservabilitySpec := {}
  policy : PolicySpec := {}
  deriving Repr, DecidableEq

/-- Metadata provides identity and versioning for a template document (types.go). -/
structure Metadata where
  name : String := ""
  version : String := ""
  description : String := ""
  labels : List (String × String) := []
  deriving Repr, DecidableEq

/-- Template is the top-level encoding template document (types.go). -/
structure Template where
  apiVersion : String := ""
  kind : String := ""
  metadata : Metadata := {}
  spec : Spec := {}
  deriving Repr, DecidableEq

/-! ## Resolver primitives (resolver.go) -/

/-- Models `setIfNonEmpty(dst *string, src string)` from resolver.go: the
value of `*dst` after the call. -/
def setIfNonEmpty (dst src : String) : String :=
  if src ≠ "" then src else dst

/-- Models a single Go map assignment `m[k] = v` on the association-list
representation: one binding per key, the existing binding is updated in
place, a new key is appended. -/
def mapSet (m : List (String × String)) (k v : String) : List (String × String) :=
  if m.any (fun kv => kv.1 = k) then
    m.map (fun kv => if kv.1 = k then (k, v) else kv)
  else
    m ++ [(k, v)]

/-- Models `mergeMaps(dst *map[string]string, src map[string]string)` from
resolver.go: when `src` is empty `dst` is left alone, otherwise each
`src` binding is assigned into `dst` (later assignment wins per key;
prior keys survive). The Go source iterates `src` in unspecified map
order; the association list fixes one order, and the resulting map
content is the same for any order because each key occurs once. -/
def mergeMaps (dst src : List (String × String)) : List (String × String) :=
  if src.length = 0 then dst
  else src.foldl (fun acc kv => mapSet acc kv.1 kv.2) dst

/-- Models `coalesce(vals ...string)` from resolver.go: the first
non-empty string, or `""` when all are empty. -/
def coalesce : List String → String
  | [] => ""
  | v :: rest => if v ≠ "" then v else coalesce rest

/-! ## Slice merge helpers (resolver.go) -/

/-- Models `mergePortSlice(dst, src []PortSpec, strategy string)` from
resolver.go. The union branch builds the `seen` set from `dst` names
up front (it is not extended while appending) and then appends each
`src` entry whose name is not in `seen`; the loop is transcribed as a
`foldl`. Any strategy other than append/union falls through to the
default branch, which replaces the list with `src`. -/
def mergePortSlice (dst src : List PortSpec) (strategy : String) : List PortSpec :=
  if strategy = MergeStrategyAppend then dst ++ src
  else if strategy = MergeStrategyUnion then
    let seen := dst.map (fun p => p.name)
    src.foldl (fun out p => if seen.contains p.name then out else out ++ [p]) dst
  else src

/-- Models `mergeSecretEntries(dst, src []SecretEntry, strategy string)`
from resolver.go; identical shape to `mergePortSlice` with the secret
entry name as the identity key. -/
def mergeSecretEntries (dst src : List SecretEntry) (strategy : String) : List SecretEntry :=
  if strategy = MergeStrategyAppend then dst ++ src
  else if strategy = MergeStrategyUnion then
    let seen := dst.map (fun e => e.name)
    src.foldl (fun out e => if seen.contains e.name then out else out ++ [e]) dst
  else src

/-! ## Per-section merge helpers (resolver.go) -/

/-- Models `mergeIdentity` from resolver.go (new value of `*dst`). -/
def mergeIdentity (dst src : IdentitySpec) : IdentitySpec where
  instanceName := setIfNonEmpty dst.instanceName src.instanceName
  role := setIfNonEmpty dst.role src.role
  region := setIfNonEmpty dst.region src.region
  labels := mergeMaps dst.labels src.labels
  tailnetTags := if 0 < src.tailnetTags.length then src.tailnetTags else dst.tailnetTags

/-- Models `mergeResource` from resolver.go. -/
def mergeResource (dst src : ResourceSpec) : ResourceSpec where
  cpu := setIfNonEmpty dst.cpu src.cpu
  memory := setIfNonEmpty dst.memory src.memory
  storagePaths := if 0 < src.storagePaths.length then src.storagePaths else dst.storagePaths

/-- Models `mergeImage` from resolver.go. -/
def mergeImage (dst src : ImageSpec) : ImageSpec where
  repository := setIfNonEmpty dst.repository src.repository
  tag := setIfNonEmpty dst.tag src.tag
  pullPolicy := setIfNonEmpty dst.pullPolicy src.pullPolicy

/-- Models `mergeRuntime` from resolver.go. -/
def mergeRuntime (dst src : RuntimeSpec) : RuntimeSpec where
  deploymentTarget := setIfNonEmpty dst.deploymentTarget src.deploymentTarget
  resources := mergeResource dst.resources src.resources
  image := mergeImage dst.image src.image

/-- Models `mergeTailscale(dst, src *TailscaleSpec) TailscaleSpec` from
resolver.go. It is only called with `src != nil`, so `src` is a plain
value here; `dst == nil` returns `*src`. Note `out.Enabled = src.Enabled`
is an unconditional overwrite in the source. -/
def mergeTailscale (dst : Option TailscaleSpec) (src : TailscaleSpec) : TailscaleSpec :=
  match dst with
  | none => src
  | some d =>
    { d with
      enabled := src.enabled
      provider := setIfNonEmpty d.provider src.provider
      tags := if 0 < src.tags.length then src.tags else d.tags
      aclMapping := mergeMaps d.aclMapping src.aclMapping }

/-- Models `mergeNetwork` from resolver.go: the effective strategy is
computed by `coalesce` before the strategy annotation is propagated, the
port list is merged only when the incoming list is non-empty, and the
pointer-valued sub-specs are replaced when present in the layer
(Tailscale via `mergeTailscale`). -/
def mergeNetwork (dst src : NetworkSpec) : NetworkSpec :=
  let strategy := coalesce [src.portsMergeStrategy, dst.portsMergeStrategy, MergeStrategyReplace]
  { ports :=
      if 0 < src.ports.length then mergePortSlice dst.ports src.ports strategy
      else dst.ports
    bindAddress := setIfNonEmpty dst.bindAddress src.bindAddress
    reverseProxy :=
      match src.reverseProxy with
      | some rp => some rp
      | none => dst.reverseProxy
    tailscale :=
      match src.tailscale with
      | some ts => some (mergeTailscale dst.tailscale ts)
      | none => dst.tailscale
    multiGateway :=
      match src.multiGateway with
      | some mg => some mg
      | none => dst.multiGateway
    portsMergeStrategy :=
      if src.portsMergeStrategy ≠ "" then src.portsMergeStrategy
      else dst.portsMergeStrategy }

/-- Models `mergeSecrets` from resolver.go. -/
def mergeSecrets (dst src : SecretsSpec) : SecretsSpec :=
  let strategy := coalesce [src.entriesMergeStrategy, dst.entriesMergeStrategy, MergeStrategyReplace]
  { provider := setIfNonEmpty dst.provider src.provider
    entries :=
      if 0 < src.entries.length then mergeSecretEntries dst.entries src.entries strategy
      else dst.entries
    entriesMergeStrategy :=
      if src.entriesMergeStrategy ≠ "" then src.entriesMergeStrategy
      else dst.entriesMergeStrategy }

/-- Models `mergeLogging` from resolver.go. -/
def mergeLogging (dst src : LoggingSpec) : LoggingSpec where
  destinations := if 0 < src.destinations.length then src.destinations else dst.destinations
  redactionRules := if 0 < src.redactionRules.length then src.redactionRules else dst.redactionRules
  level := setIfNonEmpty dst.level src.level
  format := setIfNonEmpty dst.format src.format

/-- Models `mergeMetrics` from resolver.go: `Enabled` is only set when
the layer's value is true. -/
def mergeMetrics (dst src : MetricsSpec) : MetricsSpec where
  enabled := if src.enabled then true else dst.enabled
  endpoint := setIfNonEmpty dst.endpoint src.endpoint
  format := setIfNonEmpty dst.format src.format

/-- Models `mergeTraces` from resolver.go. -/
def mergeTraces (dst src : TracesSpec) : TracesSpec where
  enabled := if src.enabled then true else dst.enabled
  endpoint := setIfNonEmpty dst.endpoint src.endpoint
  format := setIfNonEmpty dst.format src.format

/-- Models `mergeHealthCheck` from resolver.go. -/
def mergeHealthCheck (dst src : HealthCheckSpec) : HealthCheckSpec where
  path := setIfNonEmpty dst.path src.path
  interval := setIfNonEmpty dst.interval src.interval
  timeout := setIfNonEmpty dst.timeout src.timeout
  readinessGate := if src.readinessGate then true else dst.readinessGate

/-- Models `mergeObservability` from resolver.go. -/
def mergeObservability (dst src : ObservabilitySpec) : ObservabilitySpec where
  logging := mergeLogging dst.logging src.logging
  metrics := mergeMetrics dst.metrics src.metrics
  traces := mergeTraces dst.traces src.traces
  healthCheck := mergeHealthCheck dst.healthCheck src.healthCheck

/-- Models `mergePolicy` from resolver.go. -/
def mergePolicy (dst src : PolicySpec) : PolicySpec where
  updateChannel := setIfNonEmpty dst.updateChannel src.updateChannel
  pinnedVersion := setIfNonEmpty dst.pinnedVersion src.pinnedVersion
  approvedPlugins := if 0 < src.approvedPlugins.length then src.approvedPlugins else dst.approvedPlugins
  approvedProviders := if 0 < src.approvedProviders.length then src.approvedProviders else dst.approvedProviders
  filesystemAllowlist := if 0 < src.filesystemAllowlist.length then src.filesystemAllowlist else dst.filesystemAllowlist
  commandAllowlist := if 0 < src.commandAllowlist.length then src.commandAllowlist else dst.commandAllowlist

/-- Models `mergeSpec` from resolver.go. -/
def mergeSpec (dst src : Spec) : Spec where
  identity := mergeIdentity dst.identity src.identity
  runtime := mergeRuntime dst.runtime src.runtime
  network := mergeNetwork dst.network src.network
  secrets := mergeSecrets dst.secrets src.secrets
  observability := mergeObservability dst.observability src.observability
  policy := mergePolicy dst.policy src.policy

/-- Models `mergeMetadataLabels(dst, src *Template)` from resolver.go:
only the destination's metadata labels change, by keywise assignment of
the source's labels when the source has any. -/
def mergeMetadataLabels (dst src : Template) : Template :=
  if src.metadata.labels.length = 0 then dst
  else
    { dst with
      metadata :=
        { dst.metadata with
          labels := src.metadata.labels.foldl (fun acc kv => mapSet acc kv.1 kv.2) dst.metadata.labels } }

/-- Models the body of the per-layer loop in `Resolve` (resolver.go):
`mergeSpec(&result.Spec, &layer.Spec)` then
`mergeMetadataLabels(result, layer)`; a nil layer is skipped. -/
def mergeLayer (acc : Template) (layer : Option Template) : Template :=
  match layer with
  | none => acc
  | some l => mergeMetadataLabels { acc with spec := mergeSpec acc.spec l.spec } l

/-- Models `deepCopy(t *Template)` from resolver.go. The source clones by
a JSON `Marshal`/`Unmarshal` round trip; on the value model, where a Go
nil slice/map and an empty one are the same `[]` (all slice, map, and
pointer fields carry `omitempty` or are structs re-encoded field by
field), that round trip is the identity, and the marshal step cannot
fail for these field types. -/
def deepCopy (t : Template) : Template := t

/-- Models `Resolve(base *Template, layers ...*Template)` for a non-nil
base (the successful path): deep-copy the base, force `APIVersion` and
`Kind`, then fold the layers. -/
def resolveCore (base : Template) (layers : List (Option Template)) : Template :=
  let result := deepCopy base
  let result := { result with apiVersion := APIVersion, kind := KindEncodingTemplate }
  layers.foldl mergeLayer result

/-- Models `Resolve(base *Template, layers ...*Template) (*Template, error)`
from resolver.go; a nil base is the only failure. -/
def Resolve (base : Option Template) (layers : List (Option Template)) : Except String Template :=
  match base with
  | none => Except.error "base template is required"
  | some b => Except.ok (resolveCore b layers)

/-! ## Reference-semantics model of the Tailscale ACL-mapping path

Go maps are reference values: a struct copy (`out := *dst`, `return
*src`) copies the `ACLMapping` field as a reference to the same map, and
`mergeMaps` writes through that reference. The value model above erases
this sharing, so the question whether `Resolve` can write into an input
layer needs an explicit heap of map cells. Only the Tailscale fragment
of the layer loop is modelled this way: it is the one place in
resolver.go where a layer's map is aliased into the accumulated result
(`mergeTailscale`'s `dst == nil` branch returns `*src`) and later
written (`mergeMaps(&out.ACLMapping, src.ACLMapping)`). `deepCopy`'s
JSON round trip always allocates fresh maps, so the base's cells are
never aliased into the result. -/

/-- A Go `map[string]string` value: `nil` or a reference to a heap cell
holding the bindings. -/
def heapRead (h : List (List (String × String))) (r : Option Nat) : List (String × String) :=
  match r with
  | none => []
  | some i => h.getD i []

/-- Go `len(m)`: 0 for a nil map. -/
def heapMapLen (h : List (List (String × String))) (r : Option Nat) : Nat :=
  (heapRead h r).length

/-- `mergeMaps(dst *map[string]string, src map[string]string)` from
resolver.go with reference semantics: nothing happens when `src` is
empty; a nil `*dst` is replaced by a freshly allocated map; then each
`src` binding is assigned into the cell `*dst` references — a write
visible through every alias of that map. Returns the heap and the final
value of `*dst`. -/
def mergeMapsH (h : List (List (String × String))) (dst src : Option Nat) :
    List (List (String × String)) × Option Nat :=
  if heapMapLen h src = 0 then (h, dst)
  else
    let srcPairs := heapRead h src
    match dst with
    | none =>
      ((h ++ [[]]).set h.length
        (srcPairs.foldl (fun acc (kv : String × String) => mapSet acc kv.1 kv.2) []),
       some h.length)
    | some i =>
      (h.set i (srcPairs.foldl (fun acc (kv : String × String) => mapSet acc kv.1 kv.2)
        (heapRead h (some i))), some i)

/-- TailscaleSpec with its `ACLMapping` field as a map reference (the
other fields copy by value as before). -/
structure MTailscaleSpec where
  enabled : Bool := false
  provider : String := ""
  tags : List String := []
  aclMapping : Option Nat := none
  deriving Repr, DecidableEq

/-- `mergeTailscale(dst, src *TailscaleSpec)` from resolver.go with
reference semantics for the ACL map: the `dst == nil` branch returns
`*src`, a struct copy whose `ACLMapping` still references the layer's
own map; otherwise `out := *dst` keeps `dst`'s reference and
`mergeMaps(&out.ACLMapping, src.ACLMapping)` writes through it. -/
def mergeTailscaleH (h : List (List (String × String)))
    (dst : Option MTailscaleSpec) (src : MTailscaleSpec) :
    List (List (String × String)) × MTailscaleSpec :=
  match dst with
  | none => (h, src)
  | some d =>
    let res := mergeMapsH h d.aclMapping src.aclMapping
    (res.1,
     { enabled := src.enabled
       provider := setIfNonEmpty d.provider src.provider
       tags := if 0 < src.tags.length then src.tags else d.tags
       aclMapping := res.2 })

/-- The Tailscale fragment of one layer step of `Resolve`'s loop
(resolver.go, `mergeNetwork`): skipped when the layer has no Tailscale
sub-spec, otherwise the merged struct becomes the accumulated one. -/
def tailscaleStepH (h : List (List (String × String)))
    (acc layer : Option MTailscaleSpec) :
    List (List (String × String)) × Option MTailscaleSpec :=
  match layer with
  | none => (h, acc)
  | some ts =>
    let res := mergeTailscaleH h acc ts
    (res.1, some res.2)

/-! ## Validator (validator.go) -/

/-- Models one character of `%q` formatting (strconv.Quote): the escapes
relevant to template field values; other printable characters pass
through unchanged. -/
def goQuoteChar (c : Char) : String :=
  if c = '"' then "\\\""
  else if c = '\\' then "\\\\"
  else if c = '\n' then "\\n"
  else if c = '\t' then "\\t"
  else if c = '\r' then "\\r"
  else String.singleton c

/-- Models `fmt`'s `%q` verb on a string value. -/
def goQuote (s : String) : String :=
  "\"" ++ String.join (s.data.map goQuoteChar) ++ "\""

/-- Lookup tables from validator.go, as the list of keys of the Go
`map[string]bool` literals (every stored value is `true`). -/
def validRoles : List String :=
  [RoleGateway, RoleControlPlane, RoleWorker, RoleObservability, RoleDBAdjunct]

def validTargets : List String :=
  [TargetPodman, TargetKubernetes, TargetOpenShift, TargetDroplet, TargetSandbox]

def validSecretsProviders : List String := ["builtin", "vault", "k8s_secrets"]

def validSecretTypes : List String := ["api_key", "node_key", "oauth_cred", "db_cred", "cert"]

def validMergeStrategies : List String :=
  [MergeStrategyReplace, MergeStrategyAppend, MergeStrategyUnion]

def validLogLevels : List String := ["debug", "info", "warn", "error"]

def validUpdateChannels : List String := ["stable", "beta", "nightly", "pinned"]

def isValidRole (s : String) : Bool := validRoles.contains s

def isValidTarget (s : String) : Bool := validTargets.contains s

def isValidSecretsProvider (s : String) : Bool := validSecretsProviders.contains s

def isValidSecretType (s : String) : Bool := validSecretTypes.contains s

def isValidMergeStrategy (s : String) : Bool := validMergeStrategies.contains s

def isValidLogLevel (s : String) : Bool := validLogLevels.contains s

def isValidUpdateChannel (s : String) : Bool := validUpdateChannels.contains s

def validRolesStr : String := String.intercalate ", " validRoles

def validTargetsStr : String := String.intercalate ", " validTargets

/-- Metadata presence checks of `Validate` (validator.go), in source
order. -/
def metadataErrs (t : Template) : List String :=
  (if t.apiVersion = "" then ["apiVersion is required"] else [])
  ++ (if t.kind = "" then ["kind is required"] else [])
  ++ (if t.metadata.name = "" then ["metadata.name is required"] else [])

/-- Identity section of `Validate` (validator.go). -/
def identityErrs (t : Template) : List String :=
  if t.spec.identity.role ≠ "" ∧ isValidRole t.spec.identity.role = false then
    ["identity.role " ++ goQuote t.spec.identity.role
      ++ " is not a recognized role (valid: " ++ validRolesStr ++ ")"]
  else []

/-- Runtime section of `Validate` (validator.go). -/
def runtimeErrs (t : Template) : List String :=
  if t.spec.runtime.deploymentTarget ≠ ""
      ∧ isValidTarget t.spec.runtime.deploymentTarget = false then
    ["runtime.deployment_target " ++ goQuote t.spec.runtime.deploymentTarget
      ++ " is not recognized (valid: " ++ validTargetsStr ++ ")"]
  else []

/-- The per-port loop of `Validate` (validator.go). `names` models the
`portNames` map (name → last index assigned so far) and `numbers` the
`portNumbers` map (port number → last name assigned so far); the Go map
assignment that overwrites the binding each iteration is modelled by
prepending, so that `List.lookup` finds the most recent binding. -/
def portLoop : List PortSpec → Nat → List (String × Nat) → List (Int × String) → List String
  | [], _, _, _ => []
  | p :: rest, i, names, numbers =>
    (if p.name = "" then ["network.ports[" ++ toString i ++ "].name is required"] else [])
    ++ (if p.port ≤ 0 ∨ 65535 < p.port then
          ["network.ports[" ++ toString i ++ "].port " ++ toString p.port
            ++ " is out of range (1-65535)"]
        else [])
    ++ (if p.hostPort ≠ 0 ∧ (p.hostPort ≤ 0 ∨ 65535 < p.hostPort) then
          ["network.ports[" ++ toString i ++ "].host_port " ++ toString p.hostPort
            ++ " is out of range (1-65535)"]
        else [])
    ++ (match names.lookup p.name with
        | some prev =>
          ["network.ports[" ++ toString i ++ "].name " ++ goQuote p.name
            ++ " duplicates ports[" ++ toString prev ++ "]"]
        | none => [])
    ++ (match numbers.lookup p.port with
        | some existing =>
          ["network.ports[" ++ toString i ++ "].port " ++ toString p.port
            ++ " conflicts with port named " ++ goQuote existing]
        | none => [])
    ++ portLoop rest (i + 1) ((p.name, i) :: names) ((p.port, p.name) :: numbers)

/-- Network section of `Validate` (validator.go). `ipValid` abstracts
the standard library's `net.ParseIP` succeeding; the claims settled here
never depend on its verdict. -/
def networkErrs (ipValid : String → Bool) (t : Template) : List String :=
  (if t.spec.network.bindAddress ≠ "" ∧ ipValid t.spec.network.bindAddress = false then
      ["network.bind_address " ++ goQuote t.spec.network.bindAddress
        ++ " is not a valid IP address"]
    else [])
  ++ portLoop t.spec.network.ports 0 [] []
  ++ (if t.spec.network.portsMergeStrategy ≠ ""
        ∧ isValidMergeStrategy t.spec.network.portsMergeStrategy = false then
      ["network.ports_merge_strategy " ++ goQuote t.spec.network.portsMergeStrategy
        ++ " is invalid (valid: replace, append, union)"]
    else [])

/-- The per-entry loop of the secrets section of `Validate` (validator.go). -/
def secretEntryLoop : List SecretEntry → Nat → List String
  | [], _ => []
  | e :: rest, i =>
    (if e.name = "" then ["secrets.entries[" ++ toString i ++ "].name is required"] else [])
    ++ (if e.type = "" then ["secrets.entries[" ++ toString i ++ "].type is required"]
        else if isValidSecretType e.type = false then
          ["secrets.entries[" ++ toString i ++ "].type " ++ goQuote e.type
            ++ " is not recognized"]
        else [])
    ++ (if e.ref = "" then
          ["secrets.entries[" ++ toString i
            ++ "].ref is required (must be a URI reference, never a plaintext value)"]
        else [])
    ++ secretEntryLoop rest (i + 1)

/-- Secrets section of `Validate` (validator.go). -/
def secretsErrs (t : Template) : List String :=
  (if t.spec.secrets.provider ≠ ""
      ∧ isValidSecretsProvider t.spec.secrets.provider = false then
      ["secrets.provider " ++ goQuote t.spec.secrets.provider
        ++ " is not recognized (valid: builtin, vault, k8s_secrets)"]
    else [])
  ++ secretEntryLoop t.spec.secrets.entries 0
  ++ (if t.spec.secrets.entriesMergeStrategy ≠ ""
        ∧ isValidMergeStrategy t.spec.secrets.entriesMergeStrategy = false then
      ["secrets.entries_merge_strategy " ++ goQuote t.spec.secrets.entriesMergeStrategy
        ++ " is invalid"]
    else [])

/-- Observability section of `Validate` (validator.go). -/
def observabilityErrs (t : Template) : List String :=
  (if t.spec.observability.logging.level ≠ ""
      ∧ isValidLogLevel t.spec.observability.logging.level = false then
      ["observability.logging.level " ++ goQuote t.spec.observability.logging.level
        ++ " is invalid (valid: debug, info, warn, error)"]
    else [])
  ++ (if t.spec.observability.logging.format ≠ ""
        ∧ t.spec.observability.logging.format ≠ "json"
        ∧ t.spec.observability.logging.format ≠ "text" then
      ["observability.logging.format " ++ goQuote t.spec.observability.logging.format
        ++ " is invalid (valid: json, text)"]
    else [])

/-- Policy section of `Validate` (validator.go). -/
def policyErrs (t : Template) : List String :=
  if t.spec.policy.updateChannel ≠ ""
      ∧ isValidUpdateChannel t.spec.policy.updateChannel = false then
    ["policy.update_channel " ++ goQuote t.spec.policy.updateChannel
      ++ " is invalid (valid: stable, beta, nightly, pinned)"]
  else []

/-- Cross-field checks of `Validate` (validator.go). -/
def crossFieldErrs (t : Template) : List String :=
  if t.spec.identity.role = RoleGateway ∧ t.spec.network.ports.length = 0 then
    ["gateway role requires at least one network port"]
  else []

/-- The complete ordered violation list collected by `Validate`
(validator.go): the sections in source order. -/
def validate (ipValid : String → Bool) (t : Template) : List String :=
  metadataErrs t ++ identityErrs t ++ runtimeErrs t ++ networkErrs ipValid t
  ++ secretsErrs t ++ observabilityErrs t ++ policyErrs t ++ crossFieldErrs t

/-- Models `Validate(t *Template) error`: `none` is Go `nil`, `some errs`
is `&ValidationError{Errors: errs}` carrying every collected violation. -/
def ValidateE (ipValid : String → Bool) (t : Template) : Option (List String) :=
  let errs := validate ipValid t
  if 0 < errs.length then some errs else none

/-! ## Renderer factory (renderer.go) -/

/-- The concrete renderer types selected by `NewRenderer` (renderer.go):
`PodmanRenderer`, `KubernetesRenderer` (also used for OpenShift),
`SandboxRenderer`. -/
inductive RendererKind where
  | podman
  | kubernetes
  | sandbox
  deriving Repr, DecidableEq

/-- Models `NewRenderer(target string) (Renderer, error)` from
renderer.go: the switch over the deployment target. -/
def NewRenderer (target : String) : Except String RendererKind :=
  if target = TargetPodman then Except.ok RendererKind.podman
  else if target = TargetKubernetes ∨ target = TargetOpenShift then
    Except.ok RendererKind.kubernetes
  else if target = TargetSandbox then Except.ok RendererKind.sandbox
  else Except.error ("unsupported deployment target: " ++ target)

/-! ## Bundle assembler (bundle.go) -/

/-- InstallBundle (types.go): `Files` is a Go `map[string][]byte`,
modelled as an association list from relative path to byte content with
unique keys; its unspecified iteration order is irrelevant because every
consumer sorts the keys (proved below). -/
structure InstallBundle where
  sourceHash : String
  resolvedTemplate : Template
  files : List (String × List Nat)
  deriving Repr, DecidableEq

/-- BundleManifest (bundle.go); the Go field `Instance` is renamed
`instanceName` because `instance` is a Lean keyword. -/
structure BundleManifest where
  sourceHash : String
  instanceName : String
  role : String
  target : String
  files : List String
  deriving Repr, DecidableEq

/-- PlanSummary (bundle.go); the Go field `Instance` is renamed
`instanceName` because `instance` is a Lean keyword. -/
structure PlanSummary where
  instanceName : String
  role : String
  target : String
  sourceHash : String
  files : List String
  deriving Repr, DecidableEq

/-- Models Go's `sort.Strings`: ascending lexicographic sort. -/
def sortStrings (l : List String) : List String :=
  l.mergeSort (fun a b => a ≤ b)

/-- Models `Plan(bundle *InstallBundle) *PlanSummary` from bundle.go:
collect the keys of `bundle.Files`, `sort.Strings` them, and copy the
identity fields and source hash. -/
def Plan (bundle : InstallBundle) : PlanSummary where
  instanceName := bundle.resolvedTemplate.spec.identity.instanceName
  role := bundle.resolvedTemplate.spec.identity.role
  target := bundle.resolvedTemplate.spec.runtime.deploymentTarget
  sourceHash := bundle.sourceHash
  files := sortStrings (bundle.files.map (fun kv => kv.1))

/-- Models the manifest value computed by `WriteBundle` (bundle.go)
before it is marshalled and written: the source hash and identity fields
plus the sorted list of artifact keys (the artifact file writes and the
manifest file write are filesystem effects outside the core model). -/
def writeBundleManifest (bundle : InstallBundle) : BundleManifest where
  sourceHash := bundle.sourceHash
  instanceName := bundle.resolvedTemplate.spec.identity.instanceName
  role := bundle.resolvedTemplate.spec.identity.role
  target := bundle.resolvedTemplate.spec.runtime.deploymentTarget
  files := sortStrings (bundle.files.map (fun kv => kv.1))

/-- Models `isScript(path string)` from bundle.go: `filepath.Ext(path)`
equals `".sh"`, which for any path is exactly "ends with `.sh`". -/
def isScript (path : String) : Bool :=
  path.takeRight 3 = ".sh"

/-! ## Canonical JSON serialization (Go `encoding/json` on the types.go
structs, used by `Hash` and `deepCopy` in resolver.go)

Go's `json.Marshal` emits struct fields in declaration order under their
tag names, omits `omitempty` fields holding the zero value (empty
string, 0, false, empty slice/map, nil pointer; never a struct), sorts
map keys, and escapes `"` `\\`, control characters, and the HTML
characters in strings. -/

/-- Lowercase hexadecimal digit. -/
def hexDigit (n : Nat) : Char :=
  "0123456789abcdef".data.getD n '0'

/-- Go `encoding/json` escaping of a single character (default encoder,
HTML escaping on). Characters above U+001F other than the escaped set
pass through. -/
def jsonEscapeChar (c : Char) : String :=
  if c = '"' then "\\\""
  else if c = '\\' then "\\\\"
  else if c = '\n' then "\\n"
  else if c = '\r' then "\\r"
  else if c = '\t' then "\\t"
  else if c = '<' then "\\u003c"
  else if c = '>' then "\\u003e"
  else if c = '&' then "\\u0026"
  else if c.toNat < 32 then
    "\\u00" ++ String.singleton (hexDigit (c.toNat / 16)) ++ String.singleton (hexDigit (c.toNat % 16))
  else String.singleton c

def jsonString (s : String) : String :=
  "\"" ++ String.join (s.data.map jsonEscapeChar) ++ "\""

def jsonInt (i : Int) : String := toString i

def jsonBool (b : Bool) : String := if b then "true" else "false"

def jsonArr (elems : List String) : String :=
  "[" ++ String.intercalate "," elems ++ "]"

/-- Assemble a JSON object from encoded fields; `none` is an omitted
field. -/
def jsonObjFields (fields : List (Option (String × String))) : String :=
  "\x7b"
  ++ String.intercalate "," ((fields.filterMap id).map (fun kv => jsonString kv.1 ++ ":" ++ kv.2))
  ++ "\x7d"

/-- Go `json.Marshal` sorts map keys before encoding. -/
def sortByKey (m : List (String × String)) : List (String × String) :=
  m.mergeSort (fun a b => a.1 ≤ b.1)

def jsonStringMap (m : List (String × String)) : String :=
  jsonObjFields ((sortByKey m).map (fun kv => some (kv.1, jsonString kv.2)))

/-- An `omitempty` string field. -/
def fStr (name s : String) : Option (String × String) :=
  if s = "" then none else some (name, jsonString s)

/-- An `omitempty` int field. -/
def fInt (name : String) (i : Int) : Option (String × String) :=
  if i = 0 then none else some (name, jsonInt i)

/-- An `omitempty` bool field. -/
def fBool (name : String) (b : Bool) : Option (String × String) :=
  if b then some (name, "true") else none

/-- An `omitempty` string-slice field. -/
def fStrList (name : String) (l : List String) : Option (String × String) :=
  if l.length = 0 then none else some (name, jsonArr (l.map jsonString))

/-- An `omitempty` map field. -/
def fMap (name : String) (m : List (String × String)) : Option (String × String) :=
  if m.length = 0 then none else some (name, jsonStringMap m)

/-- An `omitempty` pointer field (nil omitted). -/
def fPtr (name : String) (o : Option α) (enc : α → String) : Option (String × String) :=
  o.map (fun v => (name, enc v))

/-- An `omitempty` struct-slice field. -/
def fList (name : String) (l : List α) (enc : α → String) : Option (String × String) :=
  if l.length = 0 then none else some (name, jsonArr (l.map enc))

def encodePort (p : PortSpec) : String :=
  jsonObjFields
    [some ("name", jsonString p.name), some ("port", jsonInt p.port),
     fInt "host_port" p.hostPort, fStr "protocol" p.protocol]

def encodeReverseProxy (rp : ReverseProxySpec) : String :=
  jsonObjFields
    [some ("enabled", jsonBool rp.enabled), fStr "provider" rp.provider, fBool "tls" rp.tls]

def encodeTailscale (ts : TailscaleSpec) : String :=
  jsonObjFields
    [some ("enabled", jsonBool ts.enabled), fStr "provider" ts.provider,
     fStrList "tags" ts.tags, fMap "acl_mapping" ts.aclMapping]

def encodeMultiGateway (mg : MultiGatewaySpec) : String :=
  jsonObjFields
    [some ("enabled", jsonBool mg.enabled), fStr "mode" mg.mode, fInt "priority" mg.priority]

def encodeNetwork (nw : NetworkSpec) : String :=
  jsonObjFields
    [fList "ports" nw.ports encodePort, fStr "bind_address" nw.bindAddress,
     fPtr "reverse_proxy" nw.reverseProxy encodeReverseProxy,
     fPtr "tailscale" nw.tailscale encodeTailscale,
     fPtr "multi_gateway" nw.multiGateway encodeMultiGateway,
     fStr "ports_merge_strategy" nw.portsMergeStrategy]

def encodeIdentity (id : IdentitySpec) : String :=
  jsonObjFields
    [fStr "instance_name" id.instanceName, fStr "role" id.role, fStr "region" id.region,
     fMap "labels" id.labels, fStrList "tailnet_tags" id.tailnetTags]

def encodeResource (r : ResourceSpec) : String :=
  jsonObjFields
    [fStr "cpu" r.cpu, fStr "memory" r.memory, fStrList "storage_paths" r.storagePaths]

def encodeImage (im : ImageSpec) : String :=
  jsonObjFields
    [fStr "repository" im.repository, fStr "tag" im.tag, fStr "pull_policy" im.pullPolicy]

def encodeRuntime (rt : RuntimeSpec) : String :=
  jsonObjFields
    [fStr "deployment_target" rt.deploymentTarget,
     some ("resources", encodeResource rt.resources),
     some ("image", encodeImage rt.image)]

def encodeSecretEntry (e : SecretEntry) : String :=
  jsonObjFields
    [some ("name", jsonString e.name), some ("type", jsonString e.type),
     some ("ref", jsonString e.ref)]

def encodeSecrets (sec : SecretsSpec) : String :=
  jsonObjFields
    [fStr "provider" sec.provider, fList "entries" sec.entries encodeSecretEntry,
     fStr "entries_merge_strategy" sec.entriesMergeStrategy]

def encodeLogging (lg : LoggingSpec) : String :=
  jsonObjFields
    [fStrList "destinations" lg.destinations, fStrList "redaction_rules" lg.redactionRules,
     fStr "level" lg.level, fStr "format" lg.format]

def encodeMetrics (m : MetricsSpec) : String :=
  jsonObjFields
    [some ("enabled", jsonBool m.enabled), fStr "endpoint" m.endpoint, fStr "format" m.format]

def encodeTraces (tr : TracesSpec) : String :=
  jsonObjFields
    [some ("enabled", jsonBool tr.enabled), fStr "endpoint" tr.endpoint, fStr "format" tr.format]

def encodeHealthCheck (hc : HealthCheckSpec) : String :=
  jsonObjFields
    [fStr "path" hc.path, fStr "interval" hc.interval, fStr "timeout" hc.timeout,
     fBool "readiness_gate" hc.readinessGate]

def encodeObservability (o : ObservabilitySpec) : String :=
  jsonObjFields
    [some ("logging", encodeLogging o.logging), some ("metrics", encodeMetrics o.metrics),
     some ("traces", encodeTraces o.traces), some ("health_check", encodeHealthCheck o.healthCheck)]

def encodePolicy (p : PolicySpec) : String :=
  jsonObjFields
    [fStr "update_channel" p.updateChannel, fStr "pinned_version" p.pinnedVersion,
     fStrList "approved_plugins" p.approvedPlugins,
     fStrList "approved_providers" p.approvedProviders,
     fStrList "filesystem_allowlist" p.filesystemAllowlist,
     fStrList "command_allowlist" p.commandAllowlist]

def encodeSpec (s : Spec) : String :=
  jsonObjFields
    [some ("identity", encodeIdentity s.identity), some ("runtime", encodeRuntime s.runtime),
     some ("network", encodeNetwork s.network), some ("secrets", encodeSecrets s.secrets),
     some ("observability", encodeObservability s.observability),
     some ("policy", encodePolicy s.policy)]

def encodeMetadata (m : Metadata) : String :=
  jsonObjFields
    [some ("name", jsonString m.name), fStr "version" m.version,
     fStr "description" m.description, fMap "labels" m.labels]

/-- Models `json.Marshal(t)` for a `*Template` (always succeeds for
these field types). -/
def jsonMarshal (t : Template) : String :=
  jsonObjFields
    [some ("apiVersion", jsonString t.apiVersion), some ("kind", jsonString t.kind),
     some ("metadata", encodeMetadata t.metadata), some ("spec", encodeSpec t.spec)]

/-! ## SHA-256 (crypto/sha256, used by `Hash` in resolver.go) -/

/-- Truncate to a 32-bit word. -/
def w32 (n : Nat) : Nat := n % 4294967296

/-- Rotate a 32-bit word right by `n`. -/
def rotr (n x : Nat) : Nat := w32 ((x >>> n) ||| (x <<< (32 - n)))

def bigSigma0 (x : Nat) : Nat := (rotr 2 x) ^^^ (rotr 13 x) ^^^ (rotr 22 x)

def bigSigma1 (x : Nat) : Nat := (rotr 6 x) ^^^ (rotr 11 x) ^^^ (rotr 25 x)

def smallSigma0 (x : Nat) : Nat := (rotr 7 x) ^^^ (rotr 18 x) ^^^ (x >>> 3)

def smallSigma1 (x : Nat) : Nat := (rotr 17 x) ^^^ (rotr 19 x) ^^^ (x >>> 10)

def chF (x y z : Nat) : Nat := (x &&& y) ^^^ ((x ^^^ 4294967295) &&& z)

def majF (x y z : Nat) : Nat := (x &&& y) ^^^ (x &&& z) ^^^ (y &&& z)

/-- The 64 SHA-256 round constants. -/
def sha256K : List Nat :=
  [1116352408, 1899447441, 3049323471, 3921009573, 961987163, 1508970993,
   2453635748, 2870763221, 3624381080, 310598401, 607225278, 1426881987,
   1925078388, 2162078206, 2614888103, 3248222580, 3835390401, 4022224774,
   264347078, 604807628, 770255983, 1249150122, 1555081692, 1996064986,
   2554220882, 2821834349, 2952996808, 3210313671, 3336571891, 3584528711,
   113926993, 338241895, 666307205, 773529912, 1294757372, 1396182291,
   1695183700, 1986661051, 2177026350, 2456956037, 2730485921, 2820302411,
   3259730800, 3345764771, 3516065817, 3600352804, 4094571909, 275423344,
   430227734, 506948616, 659060556, 883997877, 958139571, 1322822218,
   1537002063, 1747873779, 1955562222, 2024104815, 2227730452, 2361852424,
   2428436474, 2756734187, 3204031479, 3329325298]

/-- SHA-256 working state: eight 32-bit words. -/
structure Hstate where
  a : Nat
  b : Nat
  c : Nat
  d : Nat
  e : Nat
  f : Nat
  g : Nat
  h : Nat
  deriving Repr, DecidableEq

def sha256Init : Hstate :=
  ⟨1779033703, 3144134277, 1013904242, 2773480762,
   1359893119, 2600822924, 528734635, 1541459225⟩

/-- Merkle–Damgård padding: append `0x80`, zeros to 56 mod 64, and the
bit length as 8 big-endian bytes. -/
def sha256Pad (msg : List Nat) : List Nat :=
  let L := msg.length
  let z := (119 - L % 64) % 64
  let bitLen := 8 * L
  msg ++ [128] ++ List.replicate z 0
    ++ [bitLen / 72057594037927936 % 256, bitLen / 281474976710656 % 256,
        bitLen / 1099511627776 % 256, bitLen / 4294967296 % 256,
        bitLen / 16777216 % 256, bitLen / 65536 % 256, bitLen / 256 % 256, bitLen % 256]

/-- Big-endian bytes to 32-bit words. -/
def toWords : List Nat → List Nat
  | b0 :: b1 :: b2 :: b3 :: rest => (((b0 * 256 + b1) * 256 + b2) * 256 + b3) :: toWords rest
  | _ => []

/-- Extend the 16 block words to the 64-entry message schedule. -/
def scheduleFrom (w : Array Nat) : Array Nat :=
  (List.range 48).foldl
    (fun w _ =>
      let i := w.size
      w.push (w32 (smallSigma1 (w.getD (i - 2) 0) + w.getD (i - 7) 0
        + smallSigma0 (w.getD (i - 15) 0) + w.getD (i - 16) 0)))
    w

/-- One SHA-256 round. -/
def roundStep (s : Hstate) (kw : Nat × Nat) : Hstate :=
  let t1 := w32 (s.h + bigSigma1 s.e + chF s.e s.f s.g + kw.1 + kw.2)
  let t2 := w32 (bigSigma0 s.a + majF s.a s.b s.c)
  ⟨w32 (t1 + t2), s.a, s.b, s.c, w32 (s.d + t1), s.e, s.f, s.g⟩

/-- Compress one 64-byte block into the state. -/
def compressBlock (h0 : Hstate) (block : List Nat) : Hstate :=
  let w := scheduleFrom (toWords block).toArray
  let s := (sha256K.zip w.toList).foldl roundStep h0
  ⟨w32 (h0.a + s.a), w32 (h0.b + s.b), w32 (h0.c + s.c), w32 (h0.d + s.d),
   w32 (h0.e + s.e), w32 (h0.f + s.f), w32 (h0.g + s.g), w32 (h0.h + s.h)⟩

/-- Split into 64-byte chunks. -/
def chunks64 (l : List Nat) : List (List Nat) :=
  if _h : l.length = 0 then []
  else l.take 64 :: chunks64 (l.drop 64)
termination_by l.length
decreasing_by simp only [List.length_drop]; omega

/-- A 32-bit word as 4 big-endian bytes. -/
def wordBytes (w : Nat) : List Nat :=
  [w / 16777216 % 256, w / 65536 % 256, w / 256 % 256, w % 256]

/-- SHA-256 digest (32 bytes) of a byte sequence. -/
def sha256 (msg : List Nat) : List Nat :=
  let st := (chunks64 (sha256Pad msg)).foldl compressBlock sha256Init
  wordBytes st.a ++ wordBytes st.b ++ wordBytes st.c ++ wordBytes st.d
    ++ wordBytes st.e ++ wordBytes st.f ++ wordBytes st.g ++ wordBytes st.h

/-- Lowercase hex characters of a byte list (Go `fmt`'s `%x`). -/
def hexOfBytes : List Nat → List Char
  | [] => []
  | b :: bs => hexDigit (b / 16 % 16) :: hexDigit (b % 16) :: hexOfBytes bs

/-- UTF-8 encoding of one character. -/
def utf8Bytes (c : Char) : List Nat :=
  let n := c.toNat
  if n < 128 then [n]
  else if n < 2048 then [192 + n / 64, 128 + n % 64]
  else if n < 65536 then [224 + n / 4096, 128 + n / 64 % 64, 128 + n % 64]
  else [240 + n / 262144, 128 + n / 4096 % 64, 128 + n / 64 % 64, 128 + n % 64]

/-- UTF-8 bytes of a string (Go strings are UTF-8 byte sequences). -/
def strBytes (s : String) : List Nat :=
  (s.data.map utf8Bytes).flatten

/-- Models `Hash(t *Template) (string, error)` from resolver.go:
`fmt.Sprintf("%x", sha256.Sum256(data))` over `json.Marshal(t)`. The Go
error branch is unreachable: `json.Marshal` cannot fail on these field
types, so the model is total. -/
def Hash (t : Template) : String :=
  String.mk (hexOfBytes (sha256 (strBytes (jsonMarshal t))))

/-! ## Concrete fixtures used by the claims -/

/-- A stand-in verdict for `net.ParseIP`; every fixture below has an
empty bind address, so the verdict is never consulted. -/
def ipAll : String → Bool := fun _ => true

/-- Base ports of the union-merge example (spec §8). -/
def basePorts : List PortSpec :=
  [{ name := "http", port := 8080 }, { name := "metrics", port := 9090 }]

/-- Overlay ports of the union-merge example (spec §8). -/
def overlayPorts : List PortSpec :=
  [{ name := "http", port := 80 }, { name := "https", port := 443 }]

/-- A template missing `apiVersion`, `kind`, and `metadata.name`, with an
unrecognized role. -/
def c4Template : Template :=
  { spec := { identity := { role := "bogus" } } }

/-- A gateway template with one port that passes every validation rule. -/
def gatewayOnePort : Template :=
  { apiVersion := APIVersion, kind := KindEncodingTemplate,
    metadata := { name := "gw" },
    spec := { identity := { role := "gateway" },
              network := { ports := [{ name := "http", port := 8080 }] } } }

/-- A gateway template with no ports. -/
def gatewayNoPorts : Template :=
  { apiVersion := APIVersion, kind := KindEncodingTemplate,
    metadata := { name := "gw0" },
    spec := { identity := { role := "gateway" } } }

/-- A validate-clean template whose deployment target is `droplet`. -/
def dropletTemplate : Template :=
  { apiVersion := APIVersion, kind := KindEncodingTemplate,
    metadata := { name := "d" },
    spec := { identity := { role := "worker" },
              runtime := { deploymentTarget := "droplet" } } }

/-- Accumulated Tailscale sub-spec with `enabled = true`. -/
def tsAccum : TailscaleSpec := { enabled := true, provider := "tailscale" }

/-- Incoming Tailscale sub-spec with `enabled = false`. -/
def tsLayer : TailscaleSpec := { enabled := false }

/-- Accumulated network carrying `tsAccum`. -/
def netAccum : NetworkSpec := { tailscale := some tsAccum }

/-- Heap holding the ACL maps of two input layers: cell 0 is layer 1's
`ACLMapping`, cell 1 is layer 2's. -/
def c3Heap : List (List (String × String)) := [[("a", "1")], [("b", "2")]]

/-- Layer 1's Tailscale sub-spec, whose ACL map is heap cell 0. -/
def c3Layer1Ts : MTailscaleSpec := { enabled := true, aclMapping := some 0 }

/-- Layer 2's Tailscale sub-spec, whose ACL map is heap cell 1. -/
def c3Layer2Ts : MTailscaleSpec := { enabled := true, aclMapping := some 1 }

/-- The Tailscale fragment of `Resolve(base, layer1, layer2)` for a base
without a Tailscale sub-spec (so the accumulated sub-spec starts out
nil, as after `deepCopy`): the two layer steps of the loop. -/
def c3Run : List (List (String × String)) × Option MTailscaleSpec :=
  let s1 := tailscaleStepH c3Heap none (some c3Layer1Ts)
  tailscaleStepH s1.1 s1.2 (some c3Layer2Ts)

/-- Incoming network layer carrying `tsLayer`. -/
def netLayer : NetworkSpec := { tailscale := some tsLayer }

/-! ## Helper lemmas -/

/-- The union-branch fold appends exactly the source entries whose key is
outside `seen`, in source order. -/
theorem foldl_union_filter {α : Type} (seen : List String) (key : α → String) :
    ∀ (src acc : List α),
      src.foldl (fun out x => if seen.contains (key x) then out else out ++ [x]) acc
        = acc ++ src.filter (fun x => !seen.contains (key x)) := by
  intro src
  induction src with
  | nil => intro acc; simp
  | cons x xs ih =>
    intro acc
    rw [List.foldl_cons, List.filter_cons]
    by_cases h : seen.contains (key x)
    · rw [if_pos h, ih acc, h]
      simp
    · rw [if_neg h, ih (acc ++ [x])]
      have hb : seen.contains (key x) = false := by simpa using h
      rw [hb]
      simp

/-- `mergeLayer` never touches `apiVersion` or `kind`. -/
theorem mergeLayer_identity_fields (acc : Template) (l : Option Template) :
    (mergeLayer acc l).apiVersion = acc.apiVersion ∧ (mergeLayer acc l).kind = acc.kind := by
  cases l with
  | none => exact ⟨rfl, rfl⟩
  | some t =>
    simp only [mergeLayer, mergeMetadataLabels]
    split <;> exact ⟨rfl, rfl⟩

/-- Folding layers never touches `apiVersion` or `kind`. -/
theorem foldl_mergeLayer_identity_fields :
    ∀ (ls : List (Option Template)) (acc : Template),
      (ls.foldl mergeLayer acc).apiVersion = acc.apiVersion
        ∧ (ls.foldl mergeLayer acc).kind = acc.kind := by
  intro ls
  induction ls with
  | nil => intro acc; exact ⟨rfl, rfl⟩
  | cons l rest ih =>
    intro acc
    have h1 := mergeLayer_identity_fields acc l
    have h2 := ih (mergeLayer acc l)
    exact ⟨h2.1.trans h1.1, h2.2.trans h1.2⟩

/-- `mergeMapsH` writes no existing heap cell other than the one `*dst`
references: a cell below the heap's size and different from `dst`'s
target is unchanged (a fresh allocation only appends). -/
theorem mergeMapsH_frame :
    ∀ (h : List (List (String × String))) (dst src : Option Nat) (i : Nat),
      i < h.length → dst ≠ some i →
      (mergeMapsH h dst src).1.getD i [] = h.getD i [] := by
  intro h dst src i hi hne
  unfold mergeMapsH
  by_cases hz : heapMapLen h src = 0
  · rw [if_pos hz]
  · rw [if_neg hz]
    cases dst with
    | none =>
      show ((h ++ [[]]).set h.length _).getD i [] = h.getD i []
      rw [List.getD_eq_getElem?_getD, List.getD_eq_getElem?_getD,
        List.getElem?_set_ne (by omega), List.getElem?_append_left hi]
    | some j =>
      have hji : j ≠ i := fun he => hne (by rw [he])
      show (h.set j _).getD i [] = h.getD i []
      rw [List.getD_eq_getElem?_getD, List.getD_eq_getElem?_getD,
        List.getElem?_set_ne hji]

/-- Two key-sorted association lists that are permutations of each other
with no duplicate keys are equal. -/
theorem sorted_keys_perm_eq :
    ∀ (s1 s2 : List (String × String)), s1.Perm s2 →
      s1.Pairwise (fun a b => a.1 ≤ b.1) →
      s2.Pairwise (fun a b => a.1 ≤ b.1) →
      (s1.map Prod.fst).Nodup → s1 = s2 := by
  intro s1
  induction s1 with
  | nil =>
    intro s2 hp _ _ _
    exact (hp.symm.eq_nil).symm
  | cons a t1 ih =>
    intro s2 hp hs1 hs2 hnd
    cases s2 with
    | nil => exact absurd hp.eq_nil (by simp)
    | cons b t2 =>
      rcases List.pairwise_cons.mp hs1 with ⟨ha1, ht1⟩
      rcases List.pairwise_cons.mp hs2 with ⟨hb2, ht2⟩
      rw [List.map_cons] at hnd
      rcases List.nodup_cons.mp hnd with ⟨hna, hnt⟩
      by_cases hab : a = b
      · subst hab
        rw [ih t2 hp.cons_inv ht1 ht2 hnt]
      · have hat2 : a ∈ t2 := by
          rcases List.mem_cons.mp (hp.subset (List.mem_cons_self a t1)) with h | h
          · exact absurd h hab
          · exact h
        have hbt1 : b ∈ t1 := by
          rcases List.mem_cons.mp (hp.symm.subset (List.mem_cons_self b t2)) with h | h
          · exact absurd h.symm hab
          · exact h
        have hkey : b.1 = a.1 := le_antisymm (hb2 a hat2) (ha1 b hbt1)
        exact absurd (hkey ▸ List.mem_map_of_mem Prod.fst hbt1) hna

/-- `sortByKey` depends only on the multiset of bindings when keys are
unique: Go's map iteration order cannot change the canonical encoding. -/
theorem sortByKey_perm_eq {l1 l2 : List (String × String)}
    (h : l1.Perm l2) (hnd : (l1.map Prod.fst).Nodup) :
    sortByKey l1 = sortByKey l2 := by
  have htr : ∀ a b c : String × String,
      (decide (a.1 ≤ b.1)) = true → (decide (b.1 ≤ c.1)) = true → (decide (a.1 ≤ c.1)) = true := by
    intro a b c h1 h2
    simpa using le_trans (of_decide_eq_true h1) (of_decide_eq_true h2)
  have htot : ∀ a b : String × String,
      ((decide (a.1 ≤ b.1)) || (decide (b.1 ≤ a.1))) = true := by
    intro a b
    simpa using le_total a.1 b.1
  have hs1 := (List.sorted_mergeSort htr htot l1).imp
    (fun {a b} h => of_decide_eq_true h)
  have hs2 := (List.sorted_mergeSort htr htot l2).imp
    (fun {a b} h => of_decide_eq_true h)
  exact sorted_keys_perm_eq _ _
    ((List.mergeSort_perm l1 _).trans (h.trans (List.mergeSort_perm l2 _).symm))
    hs1 hs2
    (((List.mergeSort_perm l1 _).map Prod.fst).nodup_iff.mpr hnd)

/-- `sortStrings` is permutation-invariant: sorting the keys of a Go map
gives the same list for any iteration order. -/
theorem sortStrings_perm_eq {l1 l2 : List String} (h : l1.Perm l2) :
    sortStrings l1 = sortStrings l2 :=
  List.eq_of_perm_of_sorted
    ((List.mergeSort_perm l1 _).trans (h.trans (List.mergeSort_perm l2 _).symm))
    (List.sorted_mergeSort' l1)
    (List.sorted_mergeSort' l2)

/-- An omitted-when-empty map field depends only on the multiset of
bindings when keys are unique. -/
theorem fMap_perm (name : String) {l1 l2 : List (String × String)}
    (h : l1.Perm l2) (hnd : (l1.map Prod.fst).Nodup) :
    fMap name l1 = fMap name l2 := by
  unfold fMap jsonStringMap
  rw [h.length_eq, sortByKey_perm_eq h hnd]

theorem sha256_length (msg : List Nat) : (sha256 msg).length = 32 := by
  simp [sha256, wordBytes]

theorem hexOfBytes_length (l : List Nat) : (hexOfBytes l).length = 2 * l.length := by
  induction l with
  | nil => simp [hexOfBytes]
  | cons b bs ih => simp [hexOfBytes, ih]; omega

theorem hexDigit_mem_alphabet : ∀ n, n < 16 → hexDigit n ∈ "0123456789abcdef".data := by
  decide

theorem hexOfBytes_mem (l : List Nat) :
    ∀ c ∈ hexOfBytes l, c ∈ "0123456789abcdef".data := by
  induction l with
  | nil => simp [hexOfBytes]
  | cons b bs ih =>
    intro c hc
    rcases List.mem_cons.mp hc with h | hc'
    · exact h ▸ hexDigit_mem_alphabet _ (Nat.mod_lt _ (by norm_num))
    · rcases List.mem_cons.mp hc' with h | h
      · exact h ▸ hexDigit_mem_alphabet _ (Nat.mod_lt _ (by norm_num))
      · exact ih c h

/-- The expected result of the union-merge example (spec §8). -/
def expectedUnionPorts : List PortSpec :=
  [{ name := "http", port := 8080 }, { name := "metrics", port := 9090 },
   { name := "https", port := 443 }]

/-! ## Claim theorems -/

/-- C1: at every strategy-tagged list merge step (network ports, secret
entries) the effective strategy is the first non-empty of the incoming
layer's tag, the accumulated tag, and `replace`; after the step the
accumulated result carries the incoming tag whenever that tag is
non-empty; and under the effective `replace` strategy the incoming list
fully replaces the accumulated list. -/
theorem c1_strategy_selection_and_replace :
    ∀ (dst src : NetworkSpec) (dstS srcS : SecretsSpec),
      (coalesce [src.portsMergeStrategy, dst.portsMergeStrategy, MergeStrategyReplace]
        = if src.portsMergeStrategy ≠ "" then src.portsMergeStrategy
          else if dst.portsMergeStrategy ≠ "" then dst.portsMergeStrategy
          else MergeStrategyReplace)
      ∧ ((mergeNetwork dst src).portsMergeStrategy
        = if src.portsMergeStrategy ≠ "" then src.portsMergeStrategy
          else dst.portsMergeStrategy)
      ∧ (0 < src.ports.length →
          (mergeNetwork dst src).ports
            = mergePortSlice dst.ports src.ports
                (coalesce [src.portsMergeStrategy, dst.portsMergeStrategy, MergeStrategyReplace]))
      ∧ (0 < src.ports.length →
          coalesce [src.portsMergeStrategy, dst.portsMergeStrategy, MergeStrategyReplace]
            = MergeStrategyReplace →
          (mergeNetwork dst src).ports = src.ports)
      ∧ (coalesce [srcS.entriesMergeStrategy, dstS.entriesMergeStrategy, MergeStrategyReplace]
        = if srcS.entriesMergeStrategy ≠ "" then srcS.entriesMergeStrategy
          else if dstS.entriesMergeStrategy ≠ "" then dstS.entriesMergeStrategy
          else MergeStrategyReplace)
      ∧ ((mergeSecrets dstS srcS).entriesMergeStrategy
        = if srcS.entriesMergeStrategy ≠ "" then srcS.entriesMergeStrategy
          else dstS.entriesMergeStrategy)
      ∧ (0 < srcS.entries.length →
          (mergeSecrets dstS srcS).entries
            = mergeSecretEntries dstS.entries srcS.entries
                (coalesce [srcS.entriesMergeStrategy, dstS.entriesMergeStrategy, MergeStrategyReplace]))
      ∧ (0 < srcS.entries.length →
          coalesce [srcS.entriesMergeStrategy, dstS.entriesMergeStrategy, MergeStrategyReplace]
            = MergeStrategyReplace →
          (mergeSecrets dstS srcS).entries = srcS.entries) := by
  intro dst src dstS srcS
  have hrep : (MergeStrategyReplace ≠ ("" : String)) := by decide
  refine ⟨?_, rfl, ?_, ?_, ?_, rfl, ?_, ?_⟩
  · simp [coalesce, hrep]
  · intro h
    simp [mergeNetwork, h]
  · intro h hstrat
    simp only [mergeNetwork, if_pos h, hstrat]
    simp [mergePortSlice, MergeStrategyReplace, MergeStrategyAppend, MergeStrategyUnion]
  · simp [coalesce, hrep]
  · intro h
    simp [mergeSecrets, h]
  · intro h hstrat
    simp only [mergeSecrets, if_pos h, hstrat]
    simp [mergeSecretEntries, MergeStrategyReplace, MergeStrategyAppend, MergeStrategyUnion]

/-- C1 witness: with no tags anywhere the effective strategy is
`replace` and the incoming lists fully replace the accumulated ones. -/
theorem c1_witness :
    (mergeNetwork { ports := basePorts } { ports := overlayPorts }).ports = overlayPorts
    ∧ (mergeSecrets { entries := [⟨"a", "api_key", "builtin://a"⟩] }
        { entries := [⟨"b", "cert", "builtin://b"⟩] }).entries
      = [⟨"b", "cert", "builtin://b"⟩] := by
  constructor
  · exact (c1_strategy_selection_and_replace
      { ports := basePorts } { ports := overlayPorts } {} {}).2.2.2.1 (by decide) (by decide)
  · exact (c1_strategy_selection_and_replace {} {}
      { entries := [⟨"a", "api_key", "builtin://a"⟩] }
      { entries := [⟨"b", "cert", "builtin://b"⟩] }).2.2.2.2.2.2.2 (by decide) (by decide)

/-- C2: under the `union` strategy the merged list is the accumulated
list followed by exactly those incoming entries whose identity key (port
name; secret entry name) does not occur in the accumulated list, in
layer order; in particular the spec's base/overlay port example yields
`[http:8080, metrics:9090, https:443]`. -/
theorem c2_union_append_missing_keys :
    ∀ (dst src : List PortSpec) (dstE srcE : List SecretEntry),
      mergePortSlice dst src MergeStrategyUnion
        = dst ++ src.filter (fun p => !((dst.map (fun q => q.name)).contains p.name))
      ∧ mergeSecretEntries dstE srcE MergeStrategyUnion
        = dstE ++ srcE.filter (fun e => !((dstE.map (fun q => q.name)).contains e.name))
      ∧ mergePortSlice basePorts overlayPorts MergeStrategyUnion = expectedUnionPorts := by
  intro dst src dstE srcE
  refine ⟨?_, ?_, by decide⟩
  · simp only [mergePortSlice, if_neg (by decide : ¬(MergeStrategyUnion = MergeStrategyAppend)),
      if_pos rfl]
    exact foldl_union_filter (dst.map fun q => q.name) (fun p => p.name) src dst
  · simp only [mergeSecretEntries,
      if_neg (by decide : ¬(MergeStrategyUnion = MergeStrategyAppend)), if_pos rfl]
    exact foldl_union_filter (dstE.map fun q => q.name) (fun e => e.name) srcE dstE

/-- C3 counterexample: resolving a base without a Tailscale sub-spec
against layer 1 (ACL map `{a:1}`, heap cell 0) and then layer 2 (ACL map
`{b:2}`, heap cell 1) leaves layer 1's own map holding `{a:1, b:2}` —
the first layer step stores layer 1's struct with its map reference into
the accumulated result (`mergeTailscale`'s `dst == nil` branch returns
`*src`), and the second step's `mergeMaps` writes through that shared
reference. Layer 1 is not deep-equal to its value before the call, so
`Resolve` does mutate an input layer. -/
theorem c3_counterexample :
    heapRead c3Heap c3Layer1Ts.aclMapping = [("a", "1")]
    ∧ heapRead c3Run.1 c3Layer1Ts.aclMapping = [("a", "1"), ("b", "2")]
    ∧ ¬ (heapRead c3Run.1 c3Layer1Ts.aclMapping = heapRead c3Heap c3Layer1Ts.aclMapping) := by
  exact ⟨rfl, by decide, by decide⟩

/-- C3 amended: a Tailscale merge step writes no existing map cell other
than the one referenced by the accumulated sub-spec's `ACLMapping` — so
any map never aliased into the accumulator (in particular every map of
the base, whose `deepCopy` allocates fresh cells) is untouched; but when
the accumulator has no Tailscale sub-spec the incoming layer's struct is
stored with its own map reference, and that earlier layer's map is then
the one a later step writes. -/
theorem c3_tailscale_acl_mutation_scope :
    ∀ (h : List (List (String × String))) (acc layer : Option MTailscaleSpec) (i : Nat),
      (i < h.length →
        acc.bind (fun d => d.aclMapping) ≠ some i →
        (tailscaleStepH h acc layer).1.getD i [] = h.getD i [])
      ∧ (∀ ts, tailscaleStepH h none (some ts) = (h, some ts)) := by
  intro h acc layer i
  constructor
  · intro hi hne
    cases layer with
    | none => rfl
    | some ts =>
      cases acc with
      | none => rfl
      | some d =>
        exact mergeMapsH_frame h d.aclMapping ts.aclMapping i hi hne
  · intro ts
    rfl

/-- C3 witness: at the concrete two-layer run, the second step leaves
layer 2's own cell (cell 1, not referenced by the accumulator)
unchanged. -/
theorem c3_witness :
    (tailscaleStepH (tailscaleStepH c3Heap none (some c3Layer1Ts)).1
        (tailscaleStepH c3Heap none (some c3Layer1Ts)).2
        (some c3Layer2Ts)).1.getD 1 []
      = (tailscaleStepH c3Heap none (some c3Layer1Ts)).1.getD 1 [] :=
  (c3_tailscale_acl_mutation_scope (tailscaleStepH c3Heap none (some c3Layer1Ts)).1
    (tailscaleStepH c3Heap none (some c3Layer1Ts)).2
    (some c3Layer2Ts) 1).1 (by decide) (by decide)

/-- C10: resolving a non-nil base always succeeds, and the result's
`apiVersion` is forced to the constant `lobstertank.io/v1alpha1` (and
its `kind` to `EncodingTemplate`) no matter what the base or any layer
carried. -/
theorem c10_resolve_forces_apiVersion :
    ∀ (b : Template) (ls : List (Option Template)),
      Resolve (some b) ls = Except.ok (resolveCore b ls)
      ∧ (resolveCore b ls).apiVersion = "lobstertank.io/v1alpha1"
      ∧ (resolveCore b ls).kind = KindEncodingTemplate := by
  intro b ls
  exact ⟨rfl, (foldl_mergeLayer_identity_fields ls _).1,
    (foldl_mergeLayer_identity_fields ls _).2⟩

/-- C4: `Validate` never fails fast: it returns nil exactly when there
are no violations and otherwise one aggregate error carrying the whole
violation list; the fixture missing `apiVersion` and `kind` with an
invalid role yields at least three entries, one referencing each field. -/
theorem c4_validate_aggregates :
    ∀ (ipValid : String → Bool) (t : Template),
      (ValidateE ipValid t = none ↔ validate ipValid t = [])
      ∧ (validate ipValid t ≠ [] → ValidateE ipValid t = some (validate ipValid t))
      ∧ "apiVersion is required" ∈ validate ipAll c4Template
      ∧ "kind is required" ∈ validate ipAll c4Template
      ∧ ("identity.role \"bogus\" is not a recognized role (valid: gateway, control-plane, worker, observability, db-adjunct)"
          ∈ validate ipAll c4Template)
      ∧ 3 ≤ (validate ipAll c4Template).length := by
  intro ipValid t
  refine ⟨?_, ?_, by decide, by decide, by decide, by decide⟩
  · unfold ValidateE
    constructor
    · intro h
      by_contra hne
      have hl : 0 < (validate ipValid t).length := List.length_pos.mpr hne
      simp [hl] at h
    · intro h
      simp [h]
  · intro h
    have hl : 0 < (validate ipValid t).length := List.length_pos.mpr h
    simp [ValidateE, hl]

/-- C4 witness: the fixture's aggregate error carries the full list. -/
theorem c4_witness :
    ValidateE ipAll c4Template = some (validate ipAll c4Template) :=
  (c4_validate_aggregates ipAll c4Template).2.1 (by decide)

/-- C5: a gateway template with no ports always gets the
"gateway role requires at least one network port" violation, and a
gateway template with at least one port that passes every other rule
validates cleanly. -/
theorem c5_gateway_port_rule :
    ∀ (ipValid : String → Bool) (t : Template),
      (t.spec.identity.role = RoleGateway → t.spec.network.ports = [] →
        "gateway role requires at least one network port" ∈ validate ipValid t)
      ∧ (t.spec.identity.role = RoleGateway → t.spec.network.ports ≠ [] →
          metadataErrs t = [] → identityErrs t = [] → runtimeErrs t = [] →
          networkErrs ipValid t = [] → secretsErrs t = [] →
          observabilityErrs t = [] → policyErrs t = [] →
          ValidateE ipValid t = none) := by
  intro ipValid t
  constructor
  · intro hrole hports
    have hcross : crossFieldErrs t = ["gateway role requires at least one network port"] := by
      simp [crossFieldErrs, hrole, hports]
    simp [validate, hcross]
  · intro hrole hports h1 h2 h3 h4 h5 h6 h7
    have hlen : t.spec.network.ports.length ≠ 0 := by
      simpa [List.length_eq_zero] using hports
    have hcross : crossFieldErrs t = [] := by
      simp [crossFieldErrs, hlen]
    simp [ValidateE, validate, h1, h2, h3, h4, h5, h6, h7, hcross]

/-- C5 witness: the zero-port gateway fixture gets the violation and the
one-port gateway fixture validates cleanly. -/
theorem c5_witness :
    "gateway role requires at least one network port" ∈ validate ipAll gatewayNoPorts
    ∧ ValidateE ipAll gatewayOnePort = none := by
  constructor
  · exact (c5_gateway_port_rule ipAll gatewayNoPorts).1 (by decide) (by decide)
  · exact (c5_gateway_port_rule ipAll gatewayOnePort).2 (by decide) (by decide)
      (by decide) (by decide) (by decide) (by decide) (by decide) (by decide) (by decide)

/-- C6 counterexample: the accumulated Tailscale sub-spec has
`enabled = true`, the incoming layer's has `enabled = false`, and after
the merge step the result's `enabled` is `false` — the incoming value
overwrote even though it was the zero value, contradicting the claimed
last-non-empty-wins rule for this flag. -/
theorem c6_counterexample :
    tsAccum.enabled = true
    ∧ tsLayer.enabled = false
    ∧ ¬ ((mergeNetwork netAccum netLayer).tailscale.map (fun ts => ts.enabled) = some true)
    ∧ (mergeNetwork netAccum netLayer).tailscale.map (fun ts => ts.enabled) = some false := by
  exact ⟨rfl, rfl, by decide, by decide⟩

/-- C6 amended: when the incoming layer carries a Tailscale sub-spec,
the merge keeps the accumulated sub-spec's other fields under the usual
rules (`provider` last-non-empty-wins) but the `enabled` flag is
unconditionally overwritten with the incoming layer's value, even when
that value is false. -/
theorem c6_tailscale_enabled_overwrite :
    ∀ (dst src : NetworkSpec) (d s : TailscaleSpec),
      src.tailscale = some s →
      ((mergeNetwork dst src).tailscale = some (mergeTailscale dst.tailscale s)
       ∧ (mergeTailscale (some d) s).enabled = s.enabled
       ∧ (mergeTailscale (some d) s).provider = setIfNonEmpty d.provider s.provider
       ∧ mergeTailscale none s = s) := by
  intro dst src d s h
  refine ⟨?_, rfl, rfl, rfl⟩
  simp [mergeNetwork, h]

/-- C6 witness: the merge step applied at the concrete fixtures. -/
theorem c6_witness :
    (mergeNetwork netAccum netLayer).tailscale = some (mergeTailscale (some tsAccum) tsLayer) :=
  (c6_tailscale_enabled_overwrite netAccum netLayer tsAccum tsLayer rfl).1

/-- C8: `Plan` lists exactly the sorted key set of the bundle's file
map, carries the bundle's source hash unchanged, and its file list is
identical to the one in the manifest `WriteBundle` writes; sorting is
permutation-invariant, so Go's map iteration order cannot matter. -/
theorem c8_plan_manifest_parity :
    ∀ (b : InstallBundle) (l1 l2 : List String),
      (Plan b).files = sortStrings (b.files.map Prod.fst)
      ∧ (Plan b).sourceHash = b.sourceHash
      ∧ (Plan b).files = (writeBundleManifest b).files
      ∧ (l1.Perm l2 → sortStrings l1 = sortStrings l2) := by
  intro b l1 l2
  exact ⟨rfl, rfl, rfl, fun h => sortStrings_perm_eq h⟩

/-- C8 witness: two iteration orders of the same key set sort equally. -/
theorem c8_witness :
    sortStrings ["install.sh", "openclaw.yaml"] = sortStrings ["openclaw.yaml", "install.sh"] :=
  (c8_plan_manifest_parity ⟨"h", {}, []⟩
    ["install.sh", "openclaw.yaml"] ["openclaw.yaml", "install.sh"]).2.2.2 (by decide)

/-- C9: the validator's deployment-target enum admits `droplet` (the
fixture is validate-clean), but the renderer factory rejects it with an
"unsupported deployment target" error; the factory succeeds exactly on
podman, kubernetes, openshift, and sandbox, mapping openshift to the
Kubernetes renderer. -/
theorem c9_validator_renderer_gap :
    ValidateE ipAll dropletTemplate = none
    ∧ dropletTemplate.spec.runtime.deploymentTarget = TargetDroplet
    ∧ isValidTarget TargetDroplet = true
    ∧ NewRenderer TargetDroplet = Except.error "unsupported deployment target: droplet"
    ∧ (∀ s : String,
        (∃ r, NewRenderer s = Except.ok r)
          ↔ (s = TargetPodman ∨ s = TargetKubernetes ∨ s = TargetOpenShift ∨ s = TargetSandbox))
    ∧ NewRenderer TargetOpenShift = Except.ok RendererKind.kubernetes := by
  refine ⟨by decide, rfl, by decide, by rfl, ?_, by rfl⟩
  intro s
  unfold NewRenderer
  split_ifs with h1 h2 h3
  · simp [h1]
  · constructor
    · intro _
      rcases h2 with h | h
      · exact Or.inr (Or.inl h)
      · exact Or.inr (Or.inr (Or.inl h))
    · intro _
      exact ⟨RendererKind.kubernetes, rfl⟩
  · simp [h3]
  · constructor
    · rintro ⟨r, hr⟩
      exact absurd hr (by simp)
    · rintro (h | h | h | h)
      · exact absurd h h1
      · exact absurd (Or.inl h) h2
      · exact absurd (Or.inr h) h2
      · exact absurd h h3

/-- C9 witness: the factory succeeds on podman. -/
theorem c9_witness :
    ∃ r, NewRenderer TargetPodman = Except.ok r :=
  (c9_validator_renderer_gap.2.2.2.2.1 TargetPodman).mpr (Or.inl rfl)

/-- Label bindings in one insertion order. -/
def labA : List (String × String) := [("env", "prod"), ("owner", "adam")]

/-- The same label bindings in the other insertion order. -/
def labB : List (String × String) := [("owner", "adam"), ("env", "prod")]

/-- C7: `Hash` always succeeds with a 64-character string of lowercase
hexadecimal characters, is deterministic, and two templates whose label
maps hold the same bindings in different insertion orders receive the
identical digest (the canonical JSON sorts map keys before hashing). -/
theorem c7_hash_deterministic_canonical :
    ∀ (t t1 : Template) (l1 l2 : List (String × String)),
      (Hash t).length = 64
      ∧ (∀ c ∈ (Hash t).data, c ∈ "0123456789abcdef".data)
      ∧ Hash t = Hash t
      ∧ (l1.Perm l2 → (l1.map Prod.fst).Nodup →
          Hash { t1 with metadata := { t1.metadata with labels := l1 } }
            = Hash { t1 with metadata := { t1.metadata with labels := l2 } }) := by
  intro t t1 l1 l2
  refine ⟨?_, ?_, rfl, ?_⟩
  · have h1 : (Hash t).length = (hexOfBytes (sha256 (strBytes (jsonMarshal t)))).length := rfl
    rw [h1, hexOfBytes_length, sha256_length]
  · intro c hc
    exact hexOfBytes_mem _ c hc
  · intro hperm hnd
    have hm : encodeMetadata { t1.metadata with labels := l1 }
        = encodeMetadata { t1.metadata with labels := l2 } := by
      show jsonObjFields
          [some ("name", jsonString t1.metadata.name), fStr "version" t1.metadata.version,
           fStr "description" t1.metadata.description, fMap "labels" l1]
        = jsonObjFields
          [some ("name", jsonString t1.metadata.name), fStr "version" t1.metadata.version,
           fStr "description" t1.metadata.description, fMap "labels" l2]
      rw [fMap_perm "labels" hperm hnd]
    have hjson : jsonMarshal { t1 with metadata := { t1.metadata with labels := l1 } }
        = jsonMarshal { t1 with metadata := { t1.metadata with labels := l2 } } := by
      show jsonObjFields
          [some ("apiVersion", jsonString t1.apiVersion), some ("kind", jsonString t1.kind),
           some ("metadata", encodeMetadata { t1.metadata with labels := l1 }),
           some ("spec", encodeSpec t1.spec)]
        = jsonObjFields
          [some ("apiVersion", jsonString t1.apiVersion), some ("kind", jsonString t1.kind),
           some ("metadata", encodeMetadata { t1.metadata with labels := l2 }),
           some ("spec", encodeSpec t1.spec)]
      rw [hm]
    exact congrArg (fun j => String.mk (hexOfBytes (sha256 (strBytes j)))) hjson

/-- C7 witness: the two insertion orders of the same label map hash to
the identical digest. -/
theorem c7_witness :
    Hash { ({} : Template) with metadata := { ({} : Template).metadata with labels := labA } }
      = Hash { ({} : Template) with metadata := { ({} : Template).metadata with labels := labB } } :=
  (c7_hash_deterministic_canonical {} {} labA labB).2.2.2 (by decide) (by decide)

end Lobstertank
